import Mathlib

/-!
Verification of the `real-time-inference` repository: shallow embedding of
its dataset loading, pipeline construction, evaluation and model-export
code, together with theorems settling the specification's claims.

The repository's scripts operate on pandas data frames.  We embed a data
frame as a list of named columns together with indexed rows of cells; a
cell is either missing (`NaN`), an integer, or a string.  Pure helper
functions of the scripts (`load_dataset`, `build_pipeline`,
`sanitize_label`, the export type-normalisation, the ONNX tensor-type
inference, the metrics-JSON construction) are translated directly; opaque
external library calls (scikit-learn's `train_test_split`, optuna's
search, the metric computations) are passed in as parameters or modelled
from their documented contracts, as noted on each definition.
-/

namespace RTI

/-- A single cell of a data frame: missing (pandas `NaN`), a number
(modelled as an integer), or a string. -/
inductive Cell where
  | na : Cell
  | int : Int → Cell
  | str : String → Cell
deriving DecidableEq

/-- Returns `true` iff the cell is missing. -/
def Cell.isNa : Cell → Bool
  | .na => true
  | _ => false

/-- A pandas data frame: a list of column names and rows, each row carrying
its index label and one cell per column (positionally aligned with
`cols`). -/
structure DataFrame where
  cols : List String
  rows : List (Nat × List Cell)
deriving DecidableEq

/-- Position of a column name in a column list. -/
def colIdx (cols : List String) (c : String) : Option Nat :=
  cols.findIdx? (fun x => x == c)

/-- The cell of a row at a named column (missing if the column is absent,
mirroring how the scripts only access validated columns). -/
def rowGet (cols : List String) (cells : List Cell) (c : String) : Cell :=
  match colIdx cols c with
  | some i => cells.getD i Cell.na
  | none => Cell.na

/-- Pandas `df.dropna(subset=subset)`: keep the rows whose cells at every column
of `subset` are not missing. -/
def dropnaSubset (df : DataFrame) (subset : List String) : DataFrame :=
  { cols := df.cols
    rows := df.rows.filter (fun p => subset.all (fun c => !(rowGet df.cols p.2 c).isNa)) }

/-- Pandas `df[cs].copy()`: project a data frame onto the listed columns,
preserving the row index. -/
def selectCols (df : DataFrame) (cs : List String) : DataFrame :=
  { cols := cs
    rows := df.rows.map (fun p => (p.1, cs.map (rowGet df.cols p.2))) }

/-- Pandas `df[c]`: a column as an indexed series. -/
def seriesOf (df : DataFrame) (c : String) : List (Nat × Cell) :=
  df.rows.map (fun p => (p.1, rowGet df.cols p.2 c))

/-- Parse a list of decimal digit characters into a natural number;
`none` if empty or any character is not a digit. -/
def parseDigits (cs : List Char) : Option Nat :=
  if cs.isEmpty then none
  else cs.foldl
    (fun acc c =>
      match acc with
      | some n => if c.isDigit then some (n * 10 + (c.toNat - 48)) else none
      | none => none)
    (some 0)

/-- Modelled from the spec: numeric parsing of a string as used by pandas
coercions (external library, not in src/) — an optional sign followed by
decimal digits; anything else is unparseable. -/
def parseIntStr (s : String) : Option Int :=
  match s.data with
  | '-' :: rest => (parseDigits rest).map (fun n => -(n : Int))
  | '+' :: rest => (parseDigits rest).map (fun n => (n : Int))
  | cs => (parseDigits cs).map (fun n => (n : Int))

/-- Modelled from the spec: `pd.to_numeric(col, errors="coerce")`
(external library, not in src/) — numbers pass through, parseable strings
become numbers, unparseable strings and missing values become missing. -/
def pdToNumeric : Cell → Cell
  | .na => .na
  | .int n => .int n
  | .str s =>
    match parseIntStr s with
    | some n => .int n
    | none => .na

/-- Modelled from the spec: `col.astype(str)` (external library, not in
src/) — every value is rendered as a string; a missing value becomes the
literal string "nan" (and is therefore no longer missing). -/
def pdAstypeStr : Cell → Cell
  | .na => .str "nan"
  | .int n => .str (toString n)
  | .str s => .str s

/-- Modelled from the spec: conversion of one cell by `col.astype(int)`
(external library, not in src/) — `none` models the cast raising. -/
def cellToInt : Cell → Option Int
  | .na => none
  | .int n => some n
  | .str s => parseIntStr s

/-- The feature columns shared by all Titanic scripts. -/
def FEATURES : List String := ["Pclass", "Sex", "Age", "SibSp", "Parch", "Fare", "Embarked"]

/-- The target column shared by all Titanic scripts. -/
def TARGET : String := "Survived"

/-- Numeric feature columns (`NUMERIC_FEATURES` in `train_lightgbm.py`,
`numeric_features` in `build_pipeline`). -/
def NUMERIC_FEATURES : List String := ["Age", "SibSp", "Parch", "Fare"]

/-- Categorical feature columns. -/
def CATEGORICAL_FEATURES : List String := ["Pclass", "Sex", "Embarked"]

/-- Function `sanitize_label` from `src/train_random_forest.py` /
`src/train_lightgbm.py`: `label.lower().replace(" ", "_")`.  Python's
`str.lower` on the ASCII range maps `A`–`Z` to `a`–`z` (Lean's
`Char.toLower` implements exactly this map); `str.replace(" ", "_")` with
single-character arguments replaces every space character. -/
def sanitize_label (label : String) : String :=
  String.mk ((label.data.map Char.toLower).map (fun c => if c = ' ' then '_' else c))

/-- The errors `load_dataset` can raise: the explicit "missing required
columns" `ValueError`, or the error of the `astype(int)` cast of the
target column. -/
inductive LoadError where
  | missingColumns : List String → LoadError
  | castError : LoadError
deriving DecidableEq

/-- Python `set(FEATURES + [TARGET]) - set(df.columns)`: the required columns
absent from the data frame (as the sub-list of the required-column list,
which has no duplicates). -/
def missingRequired (df : DataFrame) : List String :=
  (FEATURES ++ [TARGET]).filter (fun c => !df.cols.contains c)

/-- Modelled from the spec: `series.astype(int)` on an indexed series
(external library, not in src/) — every value is cast to an integer, and
the cast raises (here: `castError`) on a missing or non-numeric value. -/
def seriesAstypeInt : List (Nat × Cell) → Except LoadError (List (Nat × Int))
  | [] => .ok []
  | p :: rest =>
    match cellToInt p.2, seriesAstypeInt rest with
    | some v, .ok ys => .ok ((p.1, v) :: ys)
    | some _, .error e => .error e
    | none, _ => .error .castError

/-- Function `load_dataset` from `src/src/train_random_forest.py` (identical in
`src/src/train_lightgbm.py` before its categorical string-fill and in
`src/train_random_forest.py` / `src/titanic/train_lightgbm.py`): check the
required columns, drop rows whose target is missing, project onto the
feature columns, and cast the target column to integers. -/
def load_dataset (df : DataFrame) : Except LoadError (DataFrame × List (Nat × Int)) :=
  if missingRequired df ≠ [] then
    .error (.missingColumns (missingRequired df))
  else
    (seriesAstypeInt (seriesOf (dropnaSubset df [TARGET]) TARGET)).map
      (fun y => (selectCols (dropnaSubset df [TARGET]) FEATURES, y))

/-- A small concrete Titanic-shaped table: row 0 is complete, row 1 has a
missing `Age` and a missing `Survived`. -/
def sampleDf : DataFrame :=
  { cols := ["Pclass", "Sex", "Age", "SibSp", "Parch", "Fare", "Embarked", "Survived"]
    rows := [(0, [.int 3, .str "male", .int 22, .int 1, .int 0, .int 7, .str "S", .int 0]),
             (1, [.int 1, .str "female", .na, .int 1, .int 0, .int 71, .str "C", .na])] }

/-- The cells of `sampleDf`'s row 0. -/
def sampleRow0 : List Cell :=
  [.int 3, .str "male", .int 22, .int 1, .int 0, .int 7, .str "S", .int 0]

/-- The cells of `sampleDf`'s row 1 (missing target). -/
def sampleRow1 : List Cell :=
  [.int 1, .str "female", .na, .int 1, .int 0, .int 71, .str "C", .na]

/-- The feature table `load_dataset` returns on `sampleDf`. -/
def sampleX : DataFrame :=
  { cols := FEATURES
    rows := [(0, [.int 3, .str "male", .int 22, .int 1, .int 0, .int 7, .str "S"])] }

/-- The label series `load_dataset` returns on `sampleDf`. -/
def sampleY : List (Nat × Int) := [(0, 0)]

/-- A JSON scalar as written into the metrics file. -/
inductive JsonVal where
  | rat : Rat → JsonVal
  | nat : Nat → JsonVal
deriving DecidableEq

/-- The files written by one `evaluate` call: the text classification
report, the metrics JSON and the ROC-curve plot. -/
structure EvalArtifacts where
  reportFileName : String
  reportContent : String
  metricsFileName : String
  metrics : List (String × JsonVal)
  plotFileName : String
deriving DecidableEq

/-- Function `evaluate` from `src/src/train_random_forest.py` (identical in
`src/src/train_lightgbm.py` / `src/titanic/train_lightgbm.py`): the
artifact-producing part.  The predictions, the classification report and
the ROC-AUC / accuracy scores are opaque external library computations and
are taken here as inputs; the function builds the file names from the
sanitized label and the metrics dictionary exactly as the source does. -/
def evaluate (report : String) (roc_auc acc : Rat) (y_test : List (Nat × Int))
    (label : String) : EvalArtifacts :=
  { reportFileName := sanitize_label label ++ "_classification_report.txt"
    reportContent := report
    metricsFileName := sanitize_label label ++ "_metrics.json"
    metrics := [("roc_auc", .rat roc_auc), ("accuracy", .rat acc), ("support", .nat y_test.length)]
    plotFileName := sanitize_label label ++ "_roc_curve.png" }

/-- The pandas dtypes distinguished by `export_pipeline_to_onnx`. -/
inductive Dtype where
  | float64 : Dtype
  | int64 : Dtype
  | object : Dtype
deriving DecidableEq

/-- Predicate `pandas.api.types.is_float_dtype` on the dtypes we model. -/
def is_float_dtype : Dtype → Bool
  | .float64 => true
  | _ => false

/-- Predicate `pandas.api.types.is_integer_dtype` on the dtypes we model. -/
def is_integer_dtype : Dtype → Bool
  | .int64 => true
  | _ => false

/-- A skl2onnx tensor type together with its declared shape
(`[None, 1]` in the source: a free batch dimension and one column). -/
inductive TensorType where
  | floatTensor : List (Option Nat) → TensorType
  | int64Tensor : List (Option Nat) → TensorType
  | stringTensor : List (Option Nat) → TensorType
deriving DecidableEq

/-- The shape carried by a tensor type. -/
def TensorType.shape : TensorType → List (Option Nat)
  | .floatTensor s => s
  | .int64Tensor s => s
  | .stringTensor s => s

/-- The per-column tensor-type choice of `export_pipeline_to_onnx` in
`src/src/model_export.py`: string override first, then float override or
floating dtype, then integer dtype, else string. -/
def tensorTypeFor (string_feature_names float_feature_names : List String)
    (column : String) (dt : Dtype) : TensorType :=
  if string_feature_names.contains column then .stringTensor [none, some 1]
  else if float_feature_names.contains column || is_float_dtype dt then .floatTensor [none, some 1]
  else if is_integer_dtype dt then .int64Tensor [none, some 1]
  else .stringTensor [none, some 1]

/-- The `initial_types` list accumulated by the column loop of
`export_pipeline_to_onnx` over the data frame's columns and dtypes. -/
def onnx_initial_types (schema : List (String × Dtype))
    (float_feature_names string_feature_names : List String) : List (String × TensorType) :=
  schema.map (fun p => (p.1, tensorTypeFor string_feature_names float_feature_names p.1 p.2))

/-- A Python value as stored in a hyperparameter dict: the sampled ints,
floats, strings, booleans and `None` of the Optuna search space. -/
inductive PValue where
  | int : Int → PValue
  | rat : Rat → PValue
  | str : String → PValue
  | bool : Bool → PValue
  | null : PValue
deriving DecidableEq

/-- A hyperparameter dict. -/
abbrev Params := List (String × PValue)

/-- Python `params[k]`: dict lookup; `none` models the `KeyError` a missing key
would raise. -/
def Params.get (params : Params) (k : String) : Option PValue :=
  (params.find? (fun p => p.1 == k)).map Prod.snd

/-- A `SimpleImputer` strategy. -/
inductive ImputeStrategy where
  | median : ImputeStrategy
  | mostFrequent : ImputeStrategy
deriving DecidableEq

/-- The `handle_unknown` mode of a scikit-learn `OneHotEncoder`. -/
inductive HandleUnknown where
  | ignore : HandleUnknown
  | error : HandleUnknown
deriving DecidableEq

/-- A `OneHotEncoder` as configured by the pipeline builders. -/
structure OneHotEncoder where
  handle_unknown : HandleUnknown
deriving DecidableEq

/-- The `preprocess` `ColumnTransformer` built by `build_pipeline` in
`src/src/train_random_forest.py`: median imputation plus standard scaling
on the numeric columns, most-frequent imputation plus one-hot encoding on
the categorical columns. -/
structure RFPreprocessor where
  numeric_features : List String
  categorical_features : List String
  numeric_imputer : ImputeStrategy
  scaler : Bool
  categorical_imputer : Option ImputeStrategy
  encoder : OneHotEncoder
deriving DecidableEq

/-- The `RandomForestClassifier` constructor call of `build_pipeline`:
each searched hyperparameter holds the dict-lookup result (`none` models
the `KeyError` of a missing key); `n_jobs` and `random_state` are the only
values the builder fixes itself. -/
structure RandomForestClassifier where
  n_estimators : Option PValue
  max_depth : Option PValue
  min_samples_split : Option PValue
  min_samples_leaf : Option PValue
  max_features : Option PValue
  bootstrap : Option PValue
  n_jobs : Int
  random_state : Int
deriving DecidableEq

/-- The two-step pipeline returned by `build_pipeline`. -/
structure RFPipeline where
  preprocess : RFPreprocessor
  model : RandomForestClassifier
deriving DecidableEq

/-- Function `build_pipeline` from `src/src/train_random_forest.py` (lines 55-104):
a pure function of the random seed and the hyperparameter dict. -/
def build_pipeline (random_state : Int) (params : Params) : RFPipeline :=
  { preprocess :=
      { numeric_features := ["Age", "SibSp", "Parch", "Fare"]
        categorical_features := ["Pclass", "Sex", "Embarked"]
        numeric_imputer := .median
        scaler := true
        categorical_imputer := some .mostFrequent
        encoder := { handle_unknown := .ignore } }
    model :=
      { n_estimators := Params.get params "n_estimators"
        max_depth := Params.get params "max_depth"
        min_samples_split := Params.get params "min_samples_split"
        min_samples_leaf := Params.get params "min_samples_leaf"
        max_features := Params.get params "max_features"
        bootstrap := Params.get params "bootstrap"
        n_jobs := -1
        random_state := random_state } }

/-- The estimator hyperparameter keys `build_pipeline` reads from the
dict. -/
def rfParamKeys : List String :=
  ["n_estimators", "max_depth", "min_samples_split", "min_samples_leaf",
   "max_features", "bootstrap"]

/-- Modelled from the spec: the category list a scikit-learn
`OneHotEncoder` learns for one column during `fit` (external library, not
in src/) — the distinct values seen in that column. -/
def oheFitColumn (values : List Cell) : List Cell := values.dedup

/-- Modelled from the spec: `OneHotEncoder.transform` on one cell of one
column (external library, not in src/): a seen category maps to its
indicator vector; an unseen category raises when
`handle_unknown="error"` and maps to the all-zero indicator when
`handle_unknown="ignore"`. -/
def oheTransformCell (enc : OneHotEncoder) (categories : List Cell) (v : Cell) :
    Except String (List Nat) :=
  if categories.contains v then
    .ok (categories.map (fun c => if c = v then 1 else 0))
  else
    match enc.handle_unknown with
    | .ignore => .ok (categories.map (fun _ => 0))
    | .error => .error "Found unknown categories"

/-- A warning line printed by the LightGBM script's export phase. -/
inductive Warn where
  | pmml : String → Warn
  | onnx : String → Warn
deriving DecidableEq

/-- Observable outcome of the export phase at the end of `main` in
`src/src/train_lightgbm.py`: which exports were attempted and which
warnings were printed. -/
structure ExportPhase where
  pmmlAttempted : Bool
  onnxAttempted : Bool
  warnings : List Warn
deriving DecidableEq

/-- One `if not skip: try: export(...) except Exception: print(WARN)`
block: reports whether the export was attempted and the warning its
failure produced; the `try/except` converts a failure into a warning
instead of letting it escape. -/
def guardedExport (skip : Bool) (r : Except String Unit) (mk : String → Warn) :
    Except String (Bool × List Warn) :=
  if skip then .ok (false, [])
  else
    match r with
    | .ok _ => .ok (true, [])
    | .error e => .ok (true, [mk e])

/-- The export phase of `main` in `src/src/train_lightgbm.py` (lines
307-331): the guarded PMML export followed by the guarded ONNX export; a
`.error` overall result would model an exception escaping the phase and
aborting the run. -/
def lgb_export_phase (skip_pmml skip_onnx : Bool)
    (pmml_result onnx_result : Except String Unit) : Except String ExportPhase :=
  match guardedExport skip_pmml pmml_result Warn.pmml with
  | .error e => .error e
  | .ok p =>
    match guardedExport skip_onnx onnx_result Warn.onnx with
    | .error e => .error e
    | .ok o => .ok { pmmlAttempted := p.1, onnxAttempted := o.1, warnings := p.2 ++ o.2 }

/-- Pandas `y.loc[idxs]` on an indexed series: the values of `y` at the listed
index labels, in the order of `idxs` (labels are unique in the series
produced by `load_dataset`). -/
def locSeries {α : Type} (y : List (Nat × α)) (idxs : List Nat) : List (Nat × α) :=
  idxs.filterMap (fun i => (y.find? (fun p => p.1 == i)).map (fun p => (i, p.2)))

/-- The per-column coercion loop of `export_pipeline_to_pmml`
(`src/src/model_export.py` lines 38-42) applied to one row whose cells are
positionally aligned with `features`: numeric feature columns through
`pd.to_numeric(errors="coerce")`, every other designated column through
`astype(str)`. -/
def coerceRow (features numeric_features : List String) (cells : List Cell) : List Cell :=
  List.zipWith
    (fun c v => if numeric_features.contains c then pdToNumeric v else pdAstypeStr v)
    features cells

/-- The coerced feature table `X_pmml` of `export_pipeline_to_pmml` just
before the dropna step: the selected feature columns with every cell
coerced. -/
def pmmlCoerced (X : DataFrame) (features numeric_features : List String) : DataFrame :=
  { cols := features
    rows := (selectCols X features).rows.map
      (fun p => (p.1, coerceRow features numeric_features p.2)) }

/-- The assignment `valid_idx = X_pmml.dropna().index`: the indices of the coerced rows
with no remaining missing value. -/
def pmmlValidIdx (X : DataFrame) (features numeric_features : List String) : List Nat :=
  ((pmmlCoerced X features numeric_features).rows.filter
    (fun p => p.2.all (fun c => !c.isNa))).map Prod.fst

/-- The type-normalisation and row-dropping steps of
`export_pipeline_to_pmml` (`src/src/model_export.py` lines 33-47): select
the feature columns, align the labels with the features' index
(`y.loc[X_pmml.index]`), coerce every column, and restrict both the
features and the labels to the same `valid_idx` index set.  The wrapper
fit and the file write that follow are opaque library calls. -/
def export_pmml_prepare (X : DataFrame) (y : List (Nat × Int))
    (features numeric_features : List String) : DataFrame × List (Nat × Int) :=
  (⟨features,
    (pmmlCoerced X features numeric_features).rows.filter
      (fun p => (pmmlValidIdx X features numeric_features).contains p.1)⟩,
   (locSeries y ((selectCols X features).rows.map Prod.fst)).filter
      (fun p => (pmmlValidIdx X features numeric_features).contains p.1))

/-- The integer label series `load_dataset` produces. -/
abbrev Series := List (Nat × Int)

/-- An opaque stratified `train_test_split(X, y, train_size=n, stratify=y,
random_state=s)` call (external library): passed in as a function; its
contract — the train part has exactly `n` rows drawn from `X` — is
assumed as a hypothesis where a theorem needs it. -/
def SplitFn : Type :=
  DataFrame → Series → Nat → Int → DataFrame × Series

/-- The record of the single up-front subsampling call
`tune_hyperparameters` makes when the training set is large enough: its
`train_size`, its `stratify` argument and its seed. -/
structure SubsampleCall where
  train_size : Nat
  stratify : Series
  seed : Int
deriving DecidableEq

/-- Trace of `tune_hyperparameters` from `src/src/train_random_forest.py`
(lines 234-287): the optional up-front stratified subsample and the data
each Optuna trial's objective closes over.  The Optuna search itself and
the per-trial train/validation split inside the objective are opaque
library calls; the trace records the data flowing into them. -/
structure TuneTrace where
  subsampleCall : Option SubsampleCall
  searchX : DataFrame
  searchY : Series
  trialData : List (DataFrame × Series)

/-- Function `tune_hyperparameters` (data-flow part): when `sample_size > 0` and
the training set has more rows than `sample_size`, one stratified
subsample of `sample_size` rows is drawn and rebinds `X, y` before the
objective is defined, so every one of the `n_trials` trials works on that
same subsample; `test_size` only feeds the objective's internal split and
is unused here. -/
def tune_hyperparameters (split : SplitFn) (X : DataFrame) (y : Series)
    (test_size : Rat) (random_state : Int) (n_trials sample_size : Nat) : TuneTrace :=
  if 0 < sample_size ∧ sample_size < X.rows.length then
    { subsampleCall := some ⟨sample_size, y, random_state⟩
      searchX := (split X y sample_size random_state).1
      searchY := (split X y sample_size random_state).2
      trialData := (List.range n_trials).map
        (fun _ => ((split X y sample_size random_state).1,
                   (split X y sample_size random_state).2)) }
  else
    { subsampleCall := none
      searchX := X
      searchY := y
      trialData := (List.range n_trials).map (fun _ => (X, y)) }

/-- Trace of `main` in `src/src/train_random_forest.py` (lines 290-326):
the tuning trace, the pipeline built from the best parameters, and the
data the final `fit` receives.  Optuna's chosen `best_params` is opaque
and taken as a parameter; evaluation and the model dump have no bearing
on the claim and are omitted. -/
structure RFMainTrace where
  tune : TuneTrace
  finalPipeline : RFPipeline
  finalFitX : DataFrame
  finalFitY : Series

/-- The training/tuning flow of `main`: load the training and test data,
tune on the (possibly subsampled) training data, then build the final
pipeline from the best parameters and fit it on the full training set. -/
def rf_main (split : SplitFn) (best_params : Params)
    (data test_data : DataFrame) (test_size : Rat) (random_state : Int)
    (n_trials sample_size : Nat) : Except LoadError RFMainTrace :=
  match load_dataset data with
  | .error e => .error e
  | .ok (X_train_full, y_train_full) =>
    match load_dataset test_data with
    | .error e => .error e
    | .ok _ =>
      .ok { tune := tune_hyperparameters split X_train_full y_train_full
              test_size random_state n_trials sample_size
            finalPipeline := build_pipeline random_state best_params
            finalFitX := X_train_full
            finalFitY := y_train_full }

/-- A concrete splitter taking the first `n` rows: satisfies the size and
subset contract assumed of `train_test_split`. -/
def takeSplit : SplitFn :=
  fun X y n _ => (⟨X.cols, X.rows.take n⟩, y.take n)

/-- A concrete two-complete-row Titanic table. -/
def tinyDf : DataFrame :=
  { cols := ["Pclass", "Sex", "Age", "SibSp", "Parch", "Fare", "Embarked", "Survived"]
    rows := [(0, [.int 3, .str "male", .int 22, .int 1, .int 0, .int 7, .str "S", .int 0]),
             (1, [.int 1, .str "female", .int 38, .int 1, .int 0, .int 71, .str "C", .int 1])] }

/-- The features `load_dataset` returns on `tinyDf`. -/
def tinyX : DataFrame :=
  { cols := FEATURES
    rows := [(0, [.int 3, .str "male", .int 22, .int 1, .int 0, .int 7, .str "S"]),
             (1, [.int 1, .str "female", .int 38, .int 1, .int 0, .int 71, .str "C"])] }

/-- The labels `load_dataset` returns on `tinyDf`. -/
def tinyY : Series := [(0, 0), (1, 1)]

/-- The trace `rf_main` produces on `tinyDf` with `takeSplit`, no search
trials beyond one, and a subsample threshold of 1. -/
def tinyTrace : RFMainTrace :=
  { tune := tune_hyperparameters takeSplit tinyX tinyY (1 / 5) 42 1 1
    finalPipeline := build_pipeline 42 []
    finalFitX := tinyX
    finalFitY := tinyY }

/-- One character of `sanitize_label`: lowercase, then replace a space by
an underscore. -/
def sanChar (c : Char) : Char :=
  if Char.toLower c = ' ' then '_' else Char.toLower c

theorem sanitize_label_data (s : String) :
    (sanitize_label s).data = s.data.map sanChar := by
  simp only [sanitize_label, List.map_map]
  rfl

theorem toLower_toNat_of_upper (c : Char) (h1 : 65 ≤ c.toNat) (h2 : c.toNat ≤ 90) :
    (Char.toLower c).toNat = c.toNat + 32 := by
  rw [Char.toLower, if_pos ⟨h1, h2⟩]
  have hv : (c.toNat + 32).isValidChar := by
    unfold Nat.isValidChar
    omega
  rw [Char.ofNat, dif_pos hv]
  rfl

theorem toLower_of_not_upper (c : Char) (h : ¬(65 ≤ c.toNat ∧ c.toNat ≤ 90)) :
    Char.toLower c = c := by
  rw [Char.toLower, if_neg h]

theorem sanChar_not_upper (c : Char) :
    ¬(65 ≤ (sanChar c).toNat ∧ (sanChar c).toNat ≤ 90) := by
  unfold sanChar
  by_cases hu : 65 ≤ c.toNat ∧ c.toNat ≤ 90
  · have hl := toLower_toNat_of_upper c hu.1 hu.2
    have hsp : (' ' : Char).toNat = 32 := by decide
    have hne : Char.toLower c ≠ ' ' := by
      intro he
      rw [he, hsp] at hl
      omega
    rw [if_neg hne, hl]
    omega
  · rw [toLower_of_not_upper c hu]
    by_cases hs : c = ' '
    · rw [if_pos hs]
      decide
    · rw [if_neg hs]
      exact hu

theorem sanChar_ne_space (c : Char) : sanChar c ≠ ' ' := by
  unfold sanChar
  by_cases hs : Char.toLower c = ' '
  · rw [if_pos hs]
    decide
  · rw [if_neg hs]
    exact hs

theorem sanChar_idem (c : Char) : sanChar (sanChar c) = sanChar c := by
  have h1 := sanChar_not_upper c
  have h2 := sanChar_ne_space c
  show (if Char.toLower (sanChar c) = ' ' then '_' else Char.toLower (sanChar c)) = sanChar c
  rw [toLower_of_not_upper _ h1, if_neg h2]

/-- C10: `sanitize_label` is idempotent, and its output contains no
uppercase (ASCII `A`–`Z`) letter and no space, so report file names derived
from a label are stable across repeated runs. -/
theorem sanitize_label_idem_and_clean (s : String) :
    sanitize_label (sanitize_label s) = sanitize_label s ∧
      ∀ c ∈ (sanitize_label s).data, ¬(65 ≤ c.toNat ∧ c.toNat ≤ 90) ∧ c ≠ ' ' := by
  constructor
  · apply String.ext
    rw [sanitize_label_data, sanitize_label_data, List.map_map]
    apply List.map_congr_left
    intro a _
    exact sanChar_idem a
  · intro c hc
    rw [sanitize_label_data] at hc
    obtain ⟨a, _, rfl⟩ := List.mem_map.mp hc
    exact ⟨sanChar_not_upper a, sanChar_ne_space a⟩

theorem seriesAstypeInt_error (l : List (Nat × Cell)) (e : LoadError)
    (h : seriesAstypeInt l = .error e) : e = .castError := by
  induction l generalizing e with
  | nil => simp [seriesAstypeInt] at h
  | cons p rest ih =>
    rw [seriesAstypeInt] at h
    cases hc : cellToInt p.2 with
    | none =>
      rw [hc] at h
      exact (Except.error.inj h).symm
    | some v =>
      rw [hc] at h
      cases hr : seriesAstypeInt rest with
      | ok ys => rw [hr] at h; exact absurd h (by simp)
      | error e2 =>
        rw [hr] at h
        rw [← Except.error.inj h]
        exact ih e2 hr

theorem seriesAstypeInt_ok (l : List (Nat × Cell)) (ys : List (Nat × Int))
    (h : seriesAstypeInt l = .ok ys) :
    ys.map Prod.fst = l.map Prod.fst ∧
      ∀ q ∈ ys, ∃ c, (q.1, c) ∈ l ∧ cellToInt c = some q.2 := by
  induction l generalizing ys with
  | nil =>
    rw [seriesAstypeInt] at h
    rw [← Except.ok.inj h]
    simp
  | cons p rest ih =>
    rw [seriesAstypeInt] at h
    cases hc : cellToInt p.2 with
    | none => rw [hc] at h; exact absurd h (by simp)
    | some v =>
      rw [hc] at h
      cases hr : seriesAstypeInt rest with
      | error e => rw [hr] at h; exact absurd h (by simp)
      | ok ys0 =>
        rw [hr] at h
        obtain ⟨h1, h2⟩ := ih ys0 hr
        rw [← Except.ok.inj h]
        refine ⟨by simp [h1], ?_⟩
        intro q hq
        rcases List.mem_cons.mp hq with hq | hq
        · subst hq
          exact ⟨p.2, List.mem_cons_self _ _, hc⟩
        · obtain ⟨c, hcmem, hcv⟩ := h2 q hq
          exact ⟨c, List.mem_cons_of_mem _ hcmem, hcv⟩

/-- C2: `load_dataset` raises the missing-columns error exactly when some
required column (the seven features or the target) is absent from the
table, and the error names exactly the set of required columns absent;
when no required column is missing, this error is not raised. -/
theorem load_dataset_missing_columns (df : DataFrame) :
    ((∃ m, load_dataset df = .error (.missingColumns m)) ↔ missingRequired df ≠ []) ∧
    (∀ m, load_dataset df = .error (.missingColumns m) →
      ∀ c, c ∈ m ↔ (c ∈ FEATURES ++ [TARGET] ∧ c ∉ df.cols)) := by
  have hchar : ∀ c, c ∈ missingRequired df ↔ (c ∈ FEATURES ++ [TARGET] ∧ c ∉ df.cols) := by
    intro c
    simp [missingRequired, List.mem_filter]
    tauto
  by_cases hm : missingRequired df ≠ []
  · refine ⟨⟨fun _ => hm, fun _ => ⟨missingRequired df, by rw [load_dataset, if_pos hm]⟩⟩, ?_⟩
    intro m hmm c
    rw [load_dataset, if_pos hm] at hmm
    have : missingRequired df = m := LoadError.missingColumns.inj (Except.error.inj hmm)
    rw [← this]
    exact hchar c
  · have hnone : ∀ m, load_dataset df ≠ .error (.missingColumns m) := by
      intro m hmm
      rw [load_dataset, if_neg hm] at hmm
      cases hs : seriesAstypeInt (seriesOf (dropnaSubset df [TARGET]) TARGET) with
      | ok ys => rw [hs] at hmm; exact absurd hmm (by simp [Except.map])
      | error e =>
        rw [hs] at hmm
        have he : e = .castError := seriesAstypeInt_error _ e hs
        rw [he] at hmm
        simp [Except.map] at hmm
    refine ⟨⟨fun ⟨m, hmm⟩ => absurd hmm (hnone m), fun h => absurd h hm⟩, ?_⟩
    intro m hmm
    exact absurd hmm (hnone m)

/-- Witness for C2: a table having only the `Pclass` column is missing
exactly the other six features and the target. -/
theorem load_dataset_missing_columns_witness :
    (∃ m, load_dataset { cols := ["Pclass"], rows := [] } = .error (.missingColumns m)) ∧
      ("Age" ∈ missingRequired { cols := ["Pclass"], rows := [] } ↔
        ("Age" ∈ FEATURES ++ [TARGET] ∧ "Age" ∉ ({ cols := ["Pclass"], rows := [] } : DataFrame).cols)) := by
  refine ⟨((load_dataset_missing_columns _).1).mpr (by decide), ?_⟩
  exact (load_dataset_missing_columns { cols := ["Pclass"], rows := [] }).2
    (missingRequired { cols := ["Pclass"], rows := [] }) (by rw [load_dataset, if_pos (by decide)]) "Age"

/-- Witness for C10 at the concrete label "External Test". -/
theorem sanitize_label_idem_and_clean_witness :
    sanitize_label (sanitize_label "External Test") = sanitize_label "External Test" ∧
      (¬(65 ≤ 'e'.toNat ∧ 'e'.toNat ≤ 90) ∧ 'e' ≠ ' ') := by
  refine ⟨(sanitize_label_idem_and_clean "External Test").1, ?_⟩
  exact (sanitize_label_idem_and_clean "External Test").2 'e' (by decide)

theorem nodup_fst_eq {β : Type} (l : List (Nat × β)) (h : (l.map Prod.fst).Nodup)
    (i : Nat) (a b : β) (ha : (i, a) ∈ l) (hb : (i, b) ∈ l) : a = b := by
  induction l with
  | nil => simp at ha
  | cons p rest ih =>
    rw [List.map_cons, List.nodup_cons] at h
    rcases List.mem_cons.mp ha with h1 | h1 <;> rcases List.mem_cons.mp hb with h2 | h2
    · rw [← h1] at h2
      exact (congrArg Prod.snd h2).symm
    · rw [← h1] at h
      exact absurd (List.mem_map_of_mem Prod.fst h2) h.1
    · rw [← h2] at h
      exact absurd (List.mem_map_of_mem Prod.fst h1) h.1
    · exact ih h.2 h1 h2

theorem mem_dropnaSubset_target (df : DataFrame) (i : Nat) (cells : List Cell) :
    ((i, cells) ∈ (dropnaSubset df [TARGET]).rows) ↔
      ((i, cells) ∈ df.rows ∧ (rowGet df.cols cells TARGET).isNa = false) := by
  simp [dropnaSubset, List.mem_filter]

/-- C3: on a table with all required columns, `load_dataset` drops exactly
the rows whose target is missing, preserves every other row's feature
values at its original index, and returns the target column of the
surviving rows cast to integers, aligned with the surviving rows. -/
theorem load_dataset_drops_only_missing_target (df : DataFrame)
    (X : DataFrame) (y : List (Nat × Int))
    (hnodup : (df.rows.map Prod.fst).Nodup)
    (hok : load_dataset df = .ok (X, y)) :
    X.cols = FEATURES ∧
    (∀ i cells, (i, cells) ∈ df.rows → (rowGet df.cols cells TARGET).isNa = false →
      (i, FEATURES.map (rowGet df.cols cells)) ∈ X.rows) ∧
    (∀ i cells, (i, cells) ∈ df.rows → (rowGet df.cols cells TARGET).isNa = true →
      ∀ r, (i, r) ∉ X.rows) ∧
    (∀ i r, (i, r) ∈ X.rows → ∃ cells, (i, cells) ∈ df.rows ∧
      (rowGet df.cols cells TARGET).isNa = false ∧ r = FEATURES.map (rowGet df.cols cells)) ∧
    y.map Prod.fst = X.rows.map Prod.fst ∧
    (∀ q ∈ y, ∃ cells, (q.1, cells) ∈ df.rows ∧
      (rowGet df.cols cells TARGET).isNa = false ∧
      cellToInt (rowGet df.cols cells TARGET) = some q.2) := by
  by_cases hm : missingRequired df ≠ []
  · rw [load_dataset, if_pos hm] at hok
    exact absurd hok (by simp)
  · rw [load_dataset, if_neg hm] at hok
    cases hs : seriesAstypeInt (seriesOf (dropnaSubset df [TARGET]) TARGET) with
    | error e =>
      rw [hs] at hok
      exact absurd hok (by simp [Except.map])
    | ok ys =>
      rw [hs] at hok
      simp only [Except.map] at hok
      have hpair := Except.ok.inj hok
      have hX : X = selectCols (dropnaSubset df [TARGET]) FEATURES :=
        (congrArg Prod.fst hpair).symm
      have hy : y = ys := (congrArg Prod.snd hpair).symm
      obtain ⟨hys1, hys2⟩ := seriesAstypeInt_ok _ ys hs
      subst hX hy
      refine ⟨rfl, ?_, ?_, ?_, ?_, ?_⟩
      · intro i cells hmem hna
        exact List.mem_map.mpr ⟨(i, cells), (mem_dropnaSubset_target df i cells).mpr ⟨hmem, hna⟩, rfl⟩
      · intro i cells hmem hna r hr
        obtain ⟨p, hp, hpe⟩ := List.mem_map.mp hr
        have hp1 : p.1 = i := congrArg Prod.fst hpe
        obtain ⟨hpdf, hpna⟩ := (mem_dropnaSubset_target df p.1 p.2).mp (by simpa using hp)
        rw [hp1] at hpdf
        rw [← nodup_fst_eq df.rows hnodup i cells p.2 hmem hpdf] at hpna
        rw [hna] at hpna
        exact Bool.noConfusion hpna
      · intro i r hr
        obtain ⟨p, hp, hpe⟩ := List.mem_map.mp hr
        have hp1 : p.1 = i := congrArg Prod.fst hpe
        have hp2 : FEATURES.map (rowGet (dropnaSubset df [TARGET]).cols p.2) = r :=
          congrArg Prod.snd hpe
        obtain ⟨hpdf, hpna⟩ := (mem_dropnaSubset_target df p.1 p.2).mp (by simpa using hp)
        exact ⟨p.2, hp1 ▸ hpdf, hpna, hp2.symm⟩
      · rw [hys1]
        simp [seriesOf, selectCols, List.map_map]
      · intro q hq
        obtain ⟨c, hcmem, hcv⟩ := hys2 q hq
        simp only [seriesOf, List.mem_map] at hcmem
        obtain ⟨p, hp, hpe⟩ := hcmem
        have hp1 : p.1 = q.1 := congrArg Prod.fst hpe
        have hp2 : rowGet (dropnaSubset df [TARGET]).cols p.2 TARGET = c :=
          congrArg Prod.snd hpe
        obtain ⟨hpdf, hpna⟩ := (mem_dropnaSubset_target df p.1 p.2).mp hp
        refine ⟨p.2, hp1 ▸ hpdf, hpna, ?_⟩
        have : rowGet (dropnaSubset df [TARGET]).cols p.2 TARGET = rowGet df.cols p.2 TARGET := rfl
        rw [← this, hp2]
        exact hcv

/-- Witness for C3 on `sampleDf`: the complete row 0 survives with its
original feature values, and the missing-target row 1 is dropped. -/
theorem load_dataset_drops_only_missing_target_witness :
    (0, FEATURES.map (rowGet sampleDf.cols sampleRow0)) ∈ sampleX.rows ∧
      (1, ([] : List Cell)) ∉ sampleX.rows := by
  have h := load_dataset_drops_only_missing_target sampleDf sampleX sampleY (by decide) (by rfl)
  exact ⟨h.2.1 0 sampleRow0 (by decide) (by decide),
    h.2.2.1 1 sampleRow1 (by decide) (by decide) []⟩

/-- C9: the metrics JSON written by `evaluate` has exactly the keys
`roc_auc`, `accuracy` and `support`, and the value stored under `support`
is the number of rows of the held-out label series. -/
theorem evaluate_metrics_keys (report : String) (roc_auc acc : Rat)
    (y_test : List (Nat × Int)) (label : String) :
    (evaluate report roc_auc acc y_test label).metrics.map Prod.fst
        = ["roc_auc", "accuracy", "support"] ∧
      ((evaluate report roc_auc acc y_test label).metrics.find?
          (fun p => p.1 == "support")).map Prod.snd = some (.nat y_test.length) := by
  constructor <;> rfl

/-- C8: the tensor type `export_pipeline_to_onnx` assigns to a column is
determined by the string override first, then the float override or a
floating dtype, then an integer dtype, and otherwise falls back to a
string tensor; every assigned tensor type has the single-column shape
`[None, 1]`, and each column of the frame receives exactly this type in
`initial_types`. -/
theorem onnx_tensor_type_inference (schema : List (String × Dtype))
    (float_feature_names string_feature_names : List String) :
    (∀ column dt, (column, dt) ∈ schema →
      (column, tensorTypeFor string_feature_names float_feature_names column dt)
        ∈ onnx_initial_types schema float_feature_names string_feature_names) ∧
    (∀ column dt,
      (string_feature_names.contains column = true →
        tensorTypeFor string_feature_names float_feature_names column dt
          = .stringTensor [none, some 1]) ∧
      (string_feature_names.contains column = false →
        (float_feature_names.contains column || is_float_dtype dt) = true →
        tensorTypeFor string_feature_names float_feature_names column dt
          = .floatTensor [none, some 1]) ∧
      (string_feature_names.contains column = false →
        (float_feature_names.contains column || is_float_dtype dt) = false →
        is_integer_dtype dt = true →
        tensorTypeFor string_feature_names float_feature_names column dt
          = .int64Tensor [none, some 1]) ∧
      (string_feature_names.contains column = false →
        (float_feature_names.contains column || is_float_dtype dt) = false →
        is_integer_dtype dt = false →
        tensorTypeFor string_feature_names float_feature_names column dt
          = .stringTensor [none, some 1]) ∧
      (tensorTypeFor string_feature_names float_feature_names column dt).shape
        = [none, some 1]) := by
  constructor
  · intro column dt hmem
    exact List.mem_map.mpr ⟨(column, dt), hmem, rfl⟩
  · intro column dt
    refine ⟨fun h1 => by rw [tensorTypeFor, if_pos h1],
      fun h1 h2 => by rw [tensorTypeFor, if_neg (by simpa using h1), if_pos h2],
      fun h1 h2 h3 => by
        rw [tensorTypeFor, if_neg (by simpa using h1), if_neg (by simpa using h2), if_pos h3],
      fun h1 h2 h3 => by
        rw [tensorTypeFor, if_neg (by simpa using h1), if_neg (by simpa using h2),
          if_neg (by simp [h3])],
      ?_⟩
    unfold tensorTypeFor
    split
    · rfl
    · split
      · rfl
      · split <;> rfl

/-- Witness for C8 on the LightGBM script's schema: `Pclass` is in the
string-override set, `Age` has a floating dtype, and a plain integer
column gets an int64 tensor. -/
theorem onnx_tensor_type_inference_witness :
    (("Age", tensorTypeFor ["Pclass", "Sex", "Embarked"] ["Age", "SibSp", "Parch", "Fare"]
        "Age" .float64)
      ∈ onnx_initial_types [("Age", .float64), ("SibSp", .int64)]
          ["Age", "SibSp", "Parch", "Fare"] ["Pclass", "Sex", "Embarked"]) ∧
    tensorTypeFor ["Pclass", "Sex", "Embarked"] [] "SibSp" .int64
      = .int64Tensor [none, some 1] := by
  have h := onnx_tensor_type_inference [("Age", .float64), ("SibSp", .int64)]
    ["Age", "SibSp", "Parch", "Fare"] ["Pclass", "Sex", "Embarked"]
  have h2 := onnx_tensor_type_inference ([] : List (String × Dtype)) []
    ["Pclass", "Sex", "Embarked"]
  exact ⟨h.1 "Age" .float64 (by decide),
    (h2.2 "SibSp" .int64).2.2.1 (by decide) (by decide) (by decide)⟩

/-- C4: `build_pipeline` hands the caller-supplied hyperparameter values
to the estimator verbatim (each estimator hyperparameter is exactly the
dict lookup, with no internal default substituted), fixes only `n_jobs`
and the caller's random seed itself, and the estimator it builds depends
on nothing but the seed and those six dict entries. -/
theorem build_pipeline_params_verbatim (random_state : Int) (params : Params) :
    ((build_pipeline random_state params).model.n_estimators
        = Params.get params "n_estimators" ∧
      (build_pipeline random_state params).model.max_depth
        = Params.get params "max_depth" ∧
      (build_pipeline random_state params).model.min_samples_split
        = Params.get params "min_samples_split" ∧
      (build_pipeline random_state params).model.min_samples_leaf
        = Params.get params "min_samples_leaf" ∧
      (build_pipeline random_state params).model.max_features
        = Params.get params "max_features" ∧
      (build_pipeline random_state params).model.bootstrap
        = Params.get params "bootstrap" ∧
      (build_pipeline random_state params).model.n_jobs = -1 ∧
      (build_pipeline random_state params).model.random_state = random_state) ∧
    (∀ params2 : Params,
      (∀ k ∈ rfParamKeys, Params.get params2 k = Params.get params k) →
      (build_pipeline random_state params2).model
        = (build_pipeline random_state params).model) := by
  refine ⟨⟨rfl, rfl, rfl, rfl, rfl, rfl, rfl, rfl⟩, ?_⟩
  intro params2 h
  have h1 := h "n_estimators" (by decide)
  have h2 := h "max_depth" (by decide)
  have h3 := h "min_samples_split" (by decide)
  have h4 := h "min_samples_leaf" (by decide)
  have h5 := h "max_features" (by decide)
  have h6 := h "bootstrap" (by decide)
  simp [build_pipeline, h1, h2, h3, h4, h5, h6]

/-- Witness for C4: two dicts listing the same six hyperparameters in
different orders produce the identical estimator. -/
theorem build_pipeline_params_verbatim_witness :
    (build_pipeline 42 [("n_estimators", .int 300), ("max_depth", .int 10),
        ("min_samples_split", .int 2), ("min_samples_leaf", .int 1),
        ("max_features", .str "sqrt"), ("bootstrap", .bool true)]).model.n_estimators
      = Params.get [("n_estimators", .int 300), ("max_depth", .int 10),
        ("min_samples_split", .int 2), ("min_samples_leaf", .int 1),
        ("max_features", .str "sqrt"), ("bootstrap", .bool true)] "n_estimators" ∧
    (build_pipeline 42 [("bootstrap", .bool true), ("max_features", .str "sqrt"),
        ("min_samples_leaf", .int 1), ("min_samples_split", .int 2),
        ("max_depth", .int 10), ("n_estimators", .int 300)]).model
      = (build_pipeline 42 [("n_estimators", .int 300), ("max_depth", .int 10),
        ("min_samples_split", .int 2), ("min_samples_leaf", .int 1),
        ("max_features", .str "sqrt"), ("bootstrap", .bool true)]).model := by
  refine ⟨(build_pipeline_params_verbatim 42 _).1.1, ?_⟩
  exact (build_pipeline_params_verbatim 42
    [("n_estimators", .int 300), ("max_depth", .int 10),
     ("min_samples_split", .int 2), ("min_samples_leaf", .int 1),
     ("max_features", .str "sqrt"), ("bootstrap", .bool true)]).2
    [("bootstrap", .bool true), ("max_features", .str "sqrt"),
     ("min_samples_leaf", .int 1), ("min_samples_split", .int 2),
     ("max_depth", .int 10), ("n_estimators", .int 300)] (by decide)

/-- C7: the pipeline builder configures its one-hot encoder with
`handle_unknown="ignore"`, and with that setting a category unseen during
fit is mapped to the all-zero indicator row (of the fitted category
count's width) and the transform never raises on any value. -/
theorem build_pipeline_unseen_category_all_zero (random_state : Int) (params : Params)
    (fitValues : List Cell) (v : Cell)
    (hUnseen : v ∉ oheFitColumn fitValues) :
    (build_pipeline random_state params).preprocess.encoder.handle_unknown
        = .ignore ∧
    oheTransformCell (build_pipeline random_state params).preprocess.encoder
        (oheFitColumn fitValues) v
      = .ok (List.replicate (oheFitColumn fitValues).length 0) ∧
    (∀ cats w, ∃ out,
      oheTransformCell (build_pipeline random_state params).preprocess.encoder cats w
        = .ok out) := by
  refine ⟨rfl, ?_, ?_⟩
  · rw [oheTransformCell, if_neg (by simpa using hUnseen)]
    show Except.ok ((oheFitColumn fitValues).map (fun _ => 0)) = _
    rw [List.map_const']
  · intro cats w
    rw [oheTransformCell]
    by_cases hmem : cats.contains w
    · rw [if_pos hmem]
      exact ⟨_, rfl⟩
    · rw [if_neg hmem]
      exact ⟨_, rfl⟩

/-- Witness for C7: an encoder fitted on embarkation ports `S` and `C`
maps the unseen port `Q` to the all-zero indicator. -/
theorem build_pipeline_unseen_category_all_zero_witness :
    oheTransformCell (build_pipeline 42 []).preprocess.encoder
        (oheFitColumn [.str "S", .str "C", .str "S"]) (.str "Q")
      = .ok (List.replicate (oheFitColumn [.str "S", .str "C", .str "S"]).length 0) :=
  (build_pipeline_unseen_category_all_zero 42 [] [.str "S", .str "C", .str "S"]
    (.str "Q") (by decide)).2.1

/-- C6: in the LightGBM script's export phase, no exception escapes: a
PMML export failure and an ONNX export failure are each caught and turned
into a warning, each export is attempted exactly when its skip flag is
off (regardless of the other's outcome), and a failed export's message
appears among the printed warnings. -/
theorem lgb_export_failures_recovered (skip_pmml skip_onnx : Bool)
    (pmml_result onnx_result : Except String Unit) :
    (∀ err, lgb_export_phase skip_pmml skip_onnx pmml_result onnx_result ≠ .error err) ∧
    (∀ ph, lgb_export_phase skip_pmml skip_onnx pmml_result onnx_result = .ok ph →
      ph.pmmlAttempted = !skip_pmml ∧
      ph.onnxAttempted = !skip_onnx ∧
      (skip_pmml = false → ∀ e, pmml_result = .error e → Warn.pmml e ∈ ph.warnings) ∧
      (skip_onnx = false → ∀ e, onnx_result = .error e → Warn.onnx e ∈ ph.warnings)) := by
  cases skip_pmml <;> cases skip_onnx <;>
    cases pmml_result <;> cases onnx_result <;>
      refine ⟨fun err herr => ?_, fun ph hph => ?_⟩ <;>
        first
          | simp [lgb_export_phase, guardedExport] at herr
          | (simp only [lgb_export_phase, guardedExport] at hph
             simp at hph
             simp [← hph])

/-- Witness for C6: with both skip flags off and both exports failing,
the phase completes with both exports attempted and both warnings
printed. -/
theorem lgb_export_failures_recovered_witness :
    (ExportPhase.mk true true [Warn.pmml "p", Warn.onnx "o"]).pmmlAttempted = !false ∧
      Warn.pmml "p" ∈ (ExportPhase.mk true true [Warn.pmml "p", Warn.onnx "o"]).warnings ∧
      Warn.onnx "o" ∈ (ExportPhase.mk true true [Warn.pmml "p", Warn.onnx "o"]).warnings := by
  have h := (lgb_export_failures_recovered false false (.error "p") (.error "o")).2
    (ExportPhase.mk true true [Warn.pmml "p", Warn.onnx "o"]) rfl
  exact ⟨h.1, h.2.2.1 rfl "p" rfl, h.2.2.2 rfl "o" rfl⟩

theorem tune_hyperparameters_subsample (split : SplitFn) (X : DataFrame) (y : Series)
    (test_size : Rat) (random_state : Int) (n_trials sample_size : Nat)
    (h1 : 0 < sample_size) (h2 : sample_size < X.rows.length) :
    tune_hyperparameters split X y test_size random_state n_trials sample_size =
      { subsampleCall := some ⟨sample_size, y, random_state⟩
        searchX := (split X y sample_size random_state).1
        searchY := (split X y sample_size random_state).2
        trialData := (List.range n_trials).map
          (fun _ => ((split X y sample_size random_state).1,
                     (split X y sample_size random_state).2)) } := by
  rw [tune_hyperparameters, if_pos ⟨h1, h2⟩]

/-- C5: when the training set has more rows than the positive sample-size
threshold, `tune_hyperparameters` issues exactly one stratified
subsampling call (stratified by the full label series, of exactly the
threshold size, drawing rows from the training set) and every trial works
on that one subsample, while `main`'s final pipeline is fit on all loaded
training rows — strictly more than the subsample. -/
theorem tune_subsample_once_final_fit_full
    (split : SplitFn) (best_params : Params) (data test_data : DataFrame)
    (test_size : Rat) (random_state : Int) (n_trials sample_size : Nat)
    (tr : RFMainTrace) (X_full : DataFrame) (y_full : Series)
    (hload : load_dataset data = .ok (X_full, y_full))
    (hrun : rf_main split best_params data test_data test_size random_state
      n_trials sample_size = .ok tr)
    (hsplit : ∀ X y n s, n ≤ X.rows.length →
      (split X y n s).1.rows.length = n ∧ (split X y n s).1.rows.Sublist X.rows)
    (hpos : 0 < sample_size) (hbig : sample_size < X_full.rows.length) :
    tr.tune.subsampleCall = some ⟨sample_size, y_full, random_state⟩ ∧
    tr.tune.searchX.rows.length = sample_size ∧
    tr.tune.searchX.rows.Sublist X_full.rows ∧
    (∀ d ∈ tr.tune.trialData, d = (tr.tune.searchX, tr.tune.searchY)) ∧
    tr.tune.trialData.length = n_trials ∧
    tr.finalFitX = X_full ∧
    tr.finalFitY = y_full ∧
    sample_size < tr.finalFitX.rows.length := by
  rw [rf_main, hload] at hrun
  cases htest : load_dataset test_data with
  | error e => rw [htest] at hrun; exact absurd hrun (by simp)
  | ok w =>
    rw [htest] at hrun
    have hc := hsplit X_full y_full sample_size random_state (Nat.le_of_lt hbig)
    have heq := tune_hyperparameters_subsample split X_full y_full test_size
      random_state n_trials sample_size hpos hbig
    have htr := Except.ok.inj hrun
    subst htr
    refine ⟨?_, ?_, ?_, ?_, ?_, rfl, rfl, hbig⟩
    · show (tune_hyperparameters split X_full y_full test_size random_state
        n_trials sample_size).subsampleCall = _
      rw [heq]
    · show (tune_hyperparameters split X_full y_full test_size random_state
        n_trials sample_size).searchX.rows.length = _
      rw [heq]
      exact hc.1
    · show (tune_hyperparameters split X_full y_full test_size random_state
        n_trials sample_size).searchX.rows.Sublist _
      rw [heq]
      exact hc.2
    · intro d hd
      have hd2 : d ∈ (tune_hyperparameters split X_full y_full test_size random_state
          n_trials sample_size).trialData := hd
      rw [heq] at hd2
      obtain ⟨_, _, hde⟩ := List.mem_map.mp hd2
      show d = ((tune_hyperparameters split X_full y_full test_size random_state
        n_trials sample_size).searchX,
        (tune_hyperparameters split X_full y_full test_size random_state
          n_trials sample_size).searchY)
      rw [heq, ← hde]
    · show (tune_hyperparameters split X_full y_full test_size random_state
        n_trials sample_size).trialData.length = _
      rw [heq]
      simp

/-- Witness for C5 on `tinyDf` (two rows, threshold 1) with the
prefix-taking splitter. -/
theorem tune_subsample_once_final_fit_full_witness :
    tinyTrace.tune.subsampleCall = some ⟨1, tinyY, 42⟩ ∧
      tinyTrace.tune.searchX.rows.length = 1 ∧
      tinyTrace.finalFitX = tinyX ∧
      1 < tinyTrace.finalFitX.rows.length := by
  have hcontract : ∀ X y n s, n ≤ X.rows.length →
      (takeSplit X y n s).1.rows.length = n ∧ (takeSplit X y n s).1.rows.Sublist X.rows := by
    intro X y n s hn
    refine ⟨?_, List.take_sublist n X.rows⟩
    show (X.rows.take n).length = n
    rw [List.length_take]
    omega
  have h := tune_subsample_once_final_fit_full takeSplit [] tinyDf tinyDf (1 / 5) 42 1 1
    tinyTrace tinyX tinyY (by rfl) (by rfl) hcontract (by decide) (by decide)
  exact ⟨h.1, h.2.1, h.2.2.2.2.2.1, h.2.2.2.2.2.2.2⟩

theorem locSeries_cons_none {α : Type} (y : List (Nat × α)) (i : Nat) (is : List Nat)
    (h : y.find? (fun p => p.1 == i) = none) :
    locSeries y (i :: is) = locSeries y is := by
  rw [locSeries, List.filterMap_cons, h, locSeries]
  rfl

theorem locSeries_cons_some {α : Type} (y : List (Nat × α)) (i : Nat) (is : List Nat)
    (q : Nat × α) (h : y.find? (fun p => p.1 == i) = some q) :
    locSeries y (i :: is) = (i, q.2) :: locSeries y is := by
  rw [locSeries, List.filterMap_cons, h, locSeries]
  rfl

theorem locSeries_cons_not_mem {α : Type} (p : Nat × α) (y : List (Nat × α))
    (idxs : List Nat) (h : p.1 ∉ idxs) : locSeries (p :: y) idxs = locSeries y idxs := by
  induction idxs with
  | nil => rfl
  | cons i is ih =>
    have hne : p.1 ≠ i := fun he => h (he ▸ List.mem_cons_self i is)
    have htail := ih (fun hm => h (List.mem_cons_of_mem i hm))
    cases hf : y.find? (fun q => q.1 == i) with
    | none =>
      have hf2 : (p :: y).find? (fun q => q.1 == i) = none := by
        rw [List.find?_cons_of_neg _ (by simpa using hne), hf]
      rw [locSeries_cons_none _ _ _ hf2, locSeries_cons_none _ _ _ hf, htail]
    | some q =>
      have hf2 : (p :: y).find? (fun q => q.1 == i) = some q := by
        rw [List.find?_cons_of_neg _ (by simpa using hne), hf]
      rw [locSeries_cons_some _ _ _ _ hf2, locSeries_cons_some _ _ _ _ hf, htail]

theorem locSeries_self {α : Type} (y : List (Nat × α)) (h : (y.map Prod.fst).Nodup) :
    locSeries y (y.map Prod.fst) = y := by
  induction y with
  | nil => rfl
  | cons p rest ih =>
    rw [List.map_cons, List.nodup_cons] at h
    have hfind : (p :: rest).find? (fun q => q.1 == p.1) = some p :=
      List.find?_cons_of_pos _ (by simp)
    rw [List.map_cons, locSeries_cons_some _ _ _ _ hfind,
      locSeries_cons_not_mem p rest (rest.map Prod.fst) h.1, ih h.2]

theorem map_fst_filter_eq {α β : Type} (q : Nat → Bool)
    (l1 : List (Nat × α)) (l2 : List (Nat × β))
    (h : l1.map Prod.fst = l2.map Prod.fst) :
    (l1.filter (fun p => q p.1)).map Prod.fst
      = (l2.filter (fun p => q p.1)).map Prod.fst := by
  induction l1 generalizing l2 with
  | nil =>
    cases l2 with
    | nil => rfl
    | cons b bs => exact absurd h (by simp)
  | cons a as ih =>
    cases l2 with
    | nil => exact absurd h (by simp)
    | cons b bs =>
      rw [List.map_cons, List.map_cons] at h
      have h1 : a.1 = b.1 := List.head_eq_of_cons_eq h
      have h2 : as.map Prod.fst = bs.map Prod.fst := List.tail_eq_of_cons_eq h
      by_cases hq : q a.1 = true
      · rw [List.filter_cons, List.filter_cons, ← h1, if_pos hq, if_pos hq,
          List.map_cons, List.map_cons, h1, ih bs h2]
      · rw [List.filter_cons, List.filter_cons, ← h1, if_neg hq, if_neg hq]
        exact ih bs h2

theorem selectCols_map_fst (X : DataFrame) (cs : List String) :
    (selectCols X cs).rows.map Prod.fst = X.rows.map Prod.fst := by
  rw [selectCols, List.map_map]
  rfl

theorem pmmlCoerced_map_fst (X : DataFrame) (features numeric_features : List String) :
    (pmmlCoerced X features numeric_features).rows.map Prod.fst = X.rows.map Prod.fst := by
  rw [pmmlCoerced, List.map_map, selectCols, List.map_map]
  rfl

theorem mem_pmmlCoerced (X : DataFrame) (features numeric_features : List String)
    (i : Nat) (cells : List Cell) :
    ((i, cells) ∈ (pmmlCoerced X features numeric_features).rows) ↔
      ∃ cells0, (i, cells0) ∈ X.rows ∧
        cells = coerceRow features numeric_features
          (features.map (rowGet X.cols cells0)) := by
  constructor
  · intro hmem
    rw [pmmlCoerced] at hmem
    obtain ⟨p, hp, hpe⟩ := List.mem_map.mp hmem
    obtain ⟨p0, hp0, hp0e⟩ := List.mem_map.mp hp
    have he1 : p0.1 = i := by
      have := congrArg Prod.fst hpe
      have := congrArg Prod.fst hp0e
      simp_all
    refine ⟨p0.2, by rw [← he1]; exact hp0, ?_⟩
    have h2 : coerceRow features numeric_features p.2 = cells := congrArg Prod.snd hpe
    have h3 : features.map (rowGet X.cols p0.2) = p.2 := congrArg Prod.snd hp0e
    rw [← h2, ← h3]
  · rintro ⟨cells0, hmem, rfl⟩
    rw [pmmlCoerced]
    refine List.mem_map.mpr ⟨(i, features.map (rowGet X.cols cells0)), ?_, rfl⟩
    exact List.mem_map.mpr ⟨(i, cells0), hmem, rfl⟩

theorem mem_pmmlValidIdx (X : DataFrame) (features numeric_features : List String)
    (i : Nat) :
    (i ∈ pmmlValidIdx X features numeric_features) ↔
      ∃ cells, (i, cells) ∈ (pmmlCoerced X features numeric_features).rows ∧
        cells.all (fun c => !c.isNa) = true := by
  rw [pmmlValidIdx]
  constructor
  · intro hmem
    obtain ⟨p, hp, hpe⟩ := List.mem_map.mp hmem
    obtain ⟨hprow, hpall⟩ := List.mem_filter.mp hp
    exact ⟨p.2, by rw [← hpe]; exact hprow, hpall⟩
  · rintro ⟨cells, hmem, hall⟩
    exact List.mem_map.mpr ⟨(i, cells), List.mem_filter.mpr ⟨hmem, hall⟩, rfl⟩

/-- C1: the PMML type-normalisation coerces numeric feature columns with
unparseable values becoming missing and the remaining designated columns
to strings (never missing), and drops every row still containing a
missing value from the features and the labels through the same
`valid_idx` set, so the re-fit features and labels keep identical row
keys in identical order (hence identical length). -/
theorem export_pmml_prepare_aligned (X : DataFrame) (y : List (Nat × Int))
    (features numeric_features : List String)
    (hnodup : (X.rows.map Prod.fst).Nodup)
    (halign : y.map Prod.fst = X.rows.map Prod.fst) :
    ((export_pmml_prepare X y features numeric_features).1.rows.map Prod.fst
        = (export_pmml_prepare X y features numeric_features).2.map Prod.fst) ∧
    (∀ i cells, (i, cells) ∈ (export_pmml_prepare X y features numeric_features).1.rows →
      cells.all (fun c => !c.isNa) = true) ∧
    (∀ i cells, (i, cells) ∈ (export_pmml_prepare X y features numeric_features).1.rows →
      ∃ cells0, (i, cells0) ∈ X.rows ∧
        cells = coerceRow features numeric_features
          (features.map (rowGet X.cols cells0))) ∧
    (∀ i cells0, (i, cells0) ∈ X.rows →
      (((i, coerceRow features numeric_features (features.map (rowGet X.cols cells0)))
          ∈ (export_pmml_prepare X y features numeric_features).1.rows) ↔
        (coerceRow features numeric_features
          (features.map (rowGet X.cols cells0))).all (fun c => !c.isNa) = true)) ∧
    (∀ s, parseIntStr s = none → pdToNumeric (.str s) = .na) ∧
    (∀ v, (pdAstypeStr v).isNa = false) := by
  have hcmap := pmmlCoerced_map_fst X features numeric_features
  have hcnodup : ((pmmlCoerced X features numeric_features).rows.map Prod.fst).Nodup :=
    hcmap ▸ hnodup
  have hynodup : (y.map Prod.fst).Nodup := halign ▸ hnodup
  have hy1 : locSeries y ((selectCols X features).rows.map Prod.fst) = y := by
    rw [selectCols_map_fst, ← halign]
    exact locSeries_self y hynodup
  refine ⟨?_, ?_, ?_, ?_, ?_, ?_⟩
  · show ((pmmlCoerced X features numeric_features).rows.filter
        (fun p => (pmmlValidIdx X features numeric_features).contains p.1)).map Prod.fst
      = ((locSeries y ((selectCols X features).rows.map Prod.fst)).filter
        (fun p => (pmmlValidIdx X features numeric_features).contains p.1)).map Prod.fst
    rw [hy1]
    exact map_fst_filter_eq _ _ y (by rw [hcmap, halign])
  · intro i cells hmem
    obtain ⟨hrow, hvalid⟩ := List.mem_filter.mp hmem
    obtain ⟨cells2, hrow2, hall2⟩ :=
      (mem_pmmlValidIdx X features numeric_features i).mp (by simpa using hvalid)
    rw [nodup_fst_eq _ hcnodup i cells cells2 hrow hrow2]
    exact hall2
  · intro i cells hmem
    exact (mem_pmmlCoerced X features numeric_features i cells).mp
      (List.mem_filter.mp hmem).1
  · intro i cells0 hmem
    constructor
    · intro hin
      obtain ⟨hrow, hvalid⟩ := List.mem_filter.mp hin
      obtain ⟨cells2, hrow2, hall2⟩ :=
        (mem_pmmlValidIdx X features numeric_features i).mp (by simpa using hvalid)
      rw [nodup_fst_eq _ hcnodup i _ cells2 hrow hrow2]
      exact hall2
    · intro hall
      have hrow : (i, coerceRow features numeric_features
          (features.map (rowGet X.cols cells0)))
            ∈ (pmmlCoerced X features numeric_features).rows :=
        (mem_pmmlCoerced X features numeric_features i _).mpr ⟨cells0, hmem, rfl⟩
      refine List.mem_filter.mpr ⟨hrow, ?_⟩
      simpa using (mem_pmmlValidIdx X features numeric_features i).mpr
        ⟨_, hrow, hall⟩
  · intro s hs
    rw [pdToNumeric, hs]
  · intro v
    cases v <;> rfl

/-- Witness for C1: on a two-row feature table whose second row has the
unparseable `Age` value "unknown", the surviving features and labels keep
the same keys and the second row's coerced form is excluded. -/
theorem export_pmml_prepare_aligned_witness :
    ((export_pmml_prepare
        ⟨FEATURES, [(0, [.int 3, .str "male", .int 22, .int 1, .int 0, .int 7, .str "S"]),
                    (1, [.int 1, .str "female", .str "unknown", .int 1, .int 0, .int 71, .str "C"])]⟩
        [(0, 0), (1, 1)] FEATURES NUMERIC_FEATURES).1.rows.map Prod.fst
      = (export_pmml_prepare
        ⟨FEATURES, [(0, [.int 3, .str "male", .int 22, .int 1, .int 0, .int 7, .str "S"]),
                    (1, [.int 1, .str "female", .str "unknown", .int 1, .int 0, .int 71, .str "C"])]⟩
        [(0, 0), (1, 1)] FEATURES NUMERIC_FEATURES).2.map Prod.fst) ∧
    (((1, coerceRow FEATURES NUMERIC_FEATURES
        (FEATURES.map (rowGet FEATURES
          [.int 1, .str "female", .str "unknown", .int 1, .int 0, .int 71, .str "C"])))
        ∈ (export_pmml_prepare
          ⟨FEATURES, [(0, [.int 3, .str "male", .int 22, .int 1, .int 0, .int 7, .str "S"]),
                      (1, [.int 1, .str "female", .str "unknown", .int 1, .int 0, .int 71, .str "C"])]⟩
          [(0, 0), (1, 1)] FEATURES NUMERIC_FEATURES).1.rows) ↔
      (coerceRow FEATURES NUMERIC_FEATURES
        (FEATURES.map (rowGet FEATURES
          [.int 1, .str "female", .str "unknown", .int 1, .int 0, .int 71, .str "C"]))).all
        (fun c => !c.isNa) = true) := by
  have h := export_pmml_prepare_aligned
    ⟨FEATURES, [(0, [.int 3, .str "male", .int 22, .int 1, .int 0, .int 7, .str "S"]),
                (1, [.int 1, .str "female", .str "unknown", .int 1, .int 0, .int 71, .str "C"])]⟩
    [(0, 0), (1, 1)] FEATURES NUMERIC_FEATURES (by decide) (by decide)
  exact ⟨h.1, h.2.2.2.1 1
    [.int 1, .str "female", .str "unknown", .int 1, .int 0, .int 71, .str "C"] (by decide)⟩

end RTI
